import Mathlib

/-!
Verification of the sigaedu_scraper core (src/sigaedu_scraper/sigaedu_scraper.py)
against its natural-language specification.

The embedding is shallow: the HTTP transport and the HTML parser are external
collaborators (spec section 1 excludes them), so a "response" enters the model
as an already-parsed HTML tree (`HNode`), and every Python function of the
source that consumes a response is translated into a total Lean function over
that tree. Python strings are modelled by `String` with hand-rolled structural
primitives (`pySplit`, `pyReplace`, `pyStrip`, ...) mirroring the CPython
semantics of `str.split`, `str.replace`, `str.strip`, `str.lower` and `in`
(non-overlapping, left-to-right). `float()` and `int()` are modelled on plain
decimal literals, the only shapes this program feeds them, with `ℚ` standing
for the float values (all grade literals are exactly representable).
Python exceptions are modelled by `Option`/`Except`: a `none`/`.error` result
is a raised exception.
-/

/-! ## Python string primitives -/

/-- Locate the first occurrence of `sep` in a character list: `some (before,
after)` where `after` is everything past the occurrence, `none` when `sep`
does not occur. Non-overlapping, left to right, as CPython scans. -/
def findSep (sep : List Char) : List Char → Option (List Char × List Char)
  | [] => none
  | c :: cs =>
    if sep.isPrefixOf (c :: cs) then some ([], List.drop sep.length (c :: cs))
    else (findSep sep cs).map (fun p => (c :: p.1, p.2))

/-- Split on `sep`, consuming one unit of fuel per separator found; with fuel
at least the string length the fuel never runs out (each separator consumes at
least one character). -/
def splitFuel (sep : List Char) : Nat → List Char → List (List Char)
  | 0, s => [s]
  | n + 1, s =>
    match findSep sep s with
    | none => [s]
    | some (b, a) => b :: splitFuel sep n a

/-- Python `s.split(sep)` for a nonempty separator. -/
def pySplit (s sep : String) : List String :=
  (splitFuel sep.data (s.data.length + 1) s.data).map (fun l => ⟨l⟩)

/-- Python `s.count(sub)`: non-overlapping occurrences, equal to the number of
split parts minus one. -/
def pyCount (s sub : String) : Nat := (pySplit s sub).length - 1

/-- Python `s.replace(old, new)`: split on `old` and rejoin with `new`. -/
def pyReplace (s old new : String) : String :=
  String.intercalate new (pySplit s old)

/-- Python `sub in s` (substring containment) for a nonempty `sub`. -/
def pyIn (sub : String) (s : String) : Bool := go sub.data s.data where
  go (sub : List Char) : List Char → Bool
    | [] => sub.isPrefixOf []
    | c :: cs => sub.isPrefixOf (c :: cs) || go sub cs

/-- The characters Python `str.strip()` removes (ASCII whitespace; the unicode
whitespace Python also strips never occurs in this program's data). -/
def pySpace (c : Char) : Bool :=
  c = ' ' || c = '\t' || c = '\n' || c = '\r' || c = '\x0b' || c = '\x0c'

/-- Python `s.strip()`. -/
def pyStrip (s : String) : String :=
  ⟨((s.data.dropWhile pySpace).reverse.dropWhile pySpace).reverse⟩

/-- Python `s.lower()` (ASCII case folding; the program's data has no
uppercase non-ASCII letters). -/
def pyLower (s : String) : String := ⟨s.data.map Char.toLower⟩

def isDigitCh (c : Char) : Bool := '0' ≤ c && c ≤ '9'

def digitsToNat (l : List Char) : Nat :=
  l.foldl (fun n c => 10 * n + (c.toNat - '0'.toNat)) 0

/-- Python `float(s)` on plain decimal literals (optional sign, digits with an
optional decimal point): `none` is a raised `ValueError`. The exotic inputs
`float` also accepts (exponents, `inf`, `nan`, underscores) never occur in
this program's data and are outside the modelled input space. -/
def pyFloat (s : String) : Option ℚ :=
  let t := (pyStrip s).data
  let (neg, u) :=
    match t with
    | '-' :: r => (true, r)
    | '+' :: r => (false, r)
    | r => (false, r)
  let signed (n : Nat) : Int := if neg then -(n : Int) else (n : Int)
  match splitFuel ['.'] (u.length + 1) u with
  | [a] =>
    if a ≠ [] && a.all isDigitCh then some (mkRat (signed (digitsToNat a)) 1) else none
  | [a, b] =>
    if (a ++ b) ≠ [] && (a ++ b).all isDigitCh then
      some (mkRat (signed (digitsToNat (a ++ b))) (10 ^ b.length))
    else none
  | _ => none

/-- Python `int(s)` on plain decimal literals (optional sign, digits): `none`
is a raised `ValueError`. -/
def pyInt (s : String) : Option Int :=
  let t := (pyStrip s).data
  match t with
  | '-' :: r => if r ≠ [] && r.all isDigitCh then some (-(digitsToNat r : Int)) else none
  | '+' :: r => if r ≠ [] && r.all isDigitCh then some ((digitsToNat r : Int)) else none
  | r => if r ≠ [] && r.all isDigitCh then some ((digitsToNat r : Int)) else none

/-! ## Python dict (insertion-ordered, unique keys) -/

/-- Lookup in an insertion-ordered association list (a Python dict). -/
def pyLookup {α β : Type} [DecidableEq α] : List (α × β) → α → Option β
  | [], _ => none
  | p :: ps, k => if p.1 = k then some p.2 else pyLookup ps k

/-- Python `d[k] = v` / `d.update({k: v})`: an existing key keeps its position
and gets the new value, a new key is appended. -/
def pyDictUpdate {α β : Type} [DecidableEq α] : List (α × β) → α → β → List (α × β)
  | [], k, v => [(k, v)]
  | p :: ps, k, v => if p.1 = k then (k, v) :: ps else p :: pyDictUpdate ps k v

/-! ## Disciplina (CourseRecord) -/

/-- One iteration of the loop body of `Disciplina._processar_notas`: turn one
raw grade string into a `(label, value)` pair. `none` is a raised exception
(tuple-unpacking `ValueError` or `float()` failure). Mirrors the source:
`n_hifens = nota.count(' - ')`; with 2 hyphens
`nome, valor = nota.replace('Média: ', '').split(' - ')[1:]`, with 1 hyphen
`nome, valor = nota.replace('Média: ', '').split(' - ')`, else
`(nota, None)`; the value goes through `float`. -/
def processar_nota (nota : String) : Option (String × Option ℚ) :=
  let nHifens := pyCount nota " - "
  if nHifens = 2 then
    match pySplit (pyReplace nota "Média: " "") " - " with
    | [_, nome, valor] => (pyFloat valor).map (fun v => (nome, some v))
    | _ => none
  else if nHifens = 1 then
    match pySplit (pyReplace nota "Média: " "") " - " with
    | [nome, valor] => (pyFloat valor).map (fun v => (nome, some v))
    | _ => none
  else
    some (nota, none)

/-- `Disciplina._processar_notas`: fold the raw grade strings into a dict with
`notas.update([nota])` semantics. -/
def processar_notas (raw : List String) : Option (List (String × Option ℚ)) :=
  raw.foldlM (fun acc nota => (processar_nota nota).map (fun kv => pyDictUpdate acc kv.1 kv.2)) []

/-- A `Disciplina` object. `oid` models CPython object identity (`id()`):
the class defines neither `__eq__` nor `__hash__`, so container membership is
decided by identity, never by field values. -/
structure Disciplina where
  oid : Nat
  nome : String
  notas : List (String × Option ℚ)
  media_final : ℚ
  status : String
deriving DecidableEq

/-- `Disciplina.__init__`: processes the raw grade strings;
`none` is a raised exception. -/
def Disciplina.init (oid : Nat) (nome : String) (rawNotas : List String)
    (media_final : ℚ) (status : String) : Option Disciplina :=
  (processar_notas rawNotas).map (fun ns => ⟨oid, nome, ns, media_final, status⟩)

/-- The local `bimestres` of `get_medias`: grade entries whose key contains
'bimestre' case-insensitively, in insertion order. -/
def bimNotas (d : Disciplina) : List (String × Option ℚ) :=
  d.notas.filter (fun p => pyIn "bimestre" (pyLower p.1))

/-- The local `trimestres` of `get_medias`. -/
def triNotas (d : Disciplina) : List (String × Option ℚ) :=
  d.notas.filter (fun p => pyIn "trimestre" (pyLower p.1))

/-- `Disciplina.get_medias`: classify by comparing the two counts; `none` is
the Python `return None` (undecidable shape). `[None]*(4-n)` on a negative
count is the empty list, which Nat subtraction models exactly. -/
def Disciplina.get_medias (d : Disciplina) : Option (List (Option ℚ)) :=
  if (bimNotas d).length > (triNotas d).length then
    some ((bimNotas d).map Prod.snd ++ List.replicate (4 - (bimNotas d).length) none)
  else if (triNotas d).length > (bimNotas d).length then
    some ((triNotas d).map Prod.snd ++ List.replicate (3 - (triNotas d).length) none)
  else
    none

/-! ## Diario (DiaryReport) -/

/-- The Python exceptions this model distinguishes. -/
inductive PyErr where
  | valueError
  | runtimeError
deriving DecidableEq

/-- A `Diario` object: its `disciplinas` set, in insertion order. Membership
is by object identity (`oid`), the CPython set semantics for objects with
default equality. -/
structure Diario where
  disciplinas : List Disciplina
deriving DecidableEq

/-- `Diario.__init__`: the empty set. -/
def Diario.init : Diario := ⟨[]⟩

/-- `Diario.add_disciplina`: set insertion, keyed by object identity. -/
def Diario.add_disciplina (d : Diario) (x : Disciplina) : Diario :=
  if d.disciplinas.any (fun y => y.oid == x.oid) then d else ⟨d.disciplinas ++ [x]⟩

/-- `Diario.get_disciplina`: the first set element (in iteration order) with
the given name, `none` (Python's implicit `return None`) when there is none. -/
def Diario.get_disciplina (d : Diario) (nome : String) : Option Disciplina :=
  d.disciplinas.find? (fun x => x.nome == nome)

/-- The loop of `Diario.del_disciplina`, with CPython set-iterator semantics:
every `next()` call compares the set's size against the snapshot taken at the
previous call and raises `RuntimeError` ("Set changed size during iteration")
on a mismatch — including the final call that would raise `StopIteration`.
`remaining` is what the iterator has not yielded yet, `cur` the live set,
`changed` whether the previous step removed an element. -/
def delLoop (nome : String) : List Disciplina → List Disciplina → Bool →
    Except PyErr (List Disciplina)
  | _, _, true => .error .runtimeError
  | [], cur, false => .ok cur
  | x :: rest, cur, false =>
    if x.nome == nome then
      delLoop nome rest (cur.filter (fun y => !(y.oid == x.oid))) true
    else
      delLoop nome rest cur false

/-- `Diario.del_disciplina`: `for i, disciplina in enumerate(self.disciplinas):
if disciplina.nome == nome: self.disciplinas.remove(disciplina)`. The set is
mutated while being iterated. -/
def Diario.del_disciplina (d : Diario) (nome : String) : Except PyErr Diario :=
  (delLoop nome d.disciplinas d.disciplinas false).map (fun l => ⟨l⟩)

/-! ## HTML response trees

The HTML parser is an external collaborator (spec section 1), so a response
enters the model already parsed: an element node carries a tag, an attribute
mapping and child nodes, a text node carries a string (lxml's `.text`/`.tail`
pieces are the text children here). The XPath queries the source issues are
translated into functions over this tree. -/

mutual
inductive HNode where
  | elem (tag : String) (attrs : List (String × String)) (children : HForest)
  | text (s : String)
inductive HForest where
  | nil
  | cons (n : HNode) (f : HForest)
end

def HForest.ofList : List HNode → HForest
  | [] => .nil
  | n :: ns => .cons n (HForest.ofList ns)

/-- Build an element node from a child list. -/
def el (tag : String) (attrs : List (String × String)) (cs : List HNode) : HNode :=
  .elem tag attrs (HForest.ofList cs)

/-- Build a text node. -/
def tx (s : String) : HNode := .text s

def HNode.childList : HNode → List HNode
  | .text _ => []
  | .elem _ _ cs => go cs
where
  go : HForest → List HNode
    | .nil => []
    | .cons n f => n :: go f

/-- An element's attribute, `none` when absent (or on a text node). -/
def HNode.attr : HNode → String → Option String
  | .text _, _ => none
  | .elem _ attrs _, k => pyLookup attrs k

def HNode.isTag : HNode → String → Bool
  | .text _, _ => false
  | .elem t _ _, q => t == q

/-- XPath `text()` relative to an element: its direct text children. -/
def HNode.childTexts (n : HNode) : List String :=
  n.childList.filterMap (fun c =>
    match c with
    | .text s => some s
    | .elem _ _ _ => none)

/-- XPath `tag` relative to an element: its direct children with that tag. -/
def HNode.childElems (n : HNode) (tag : String) : List HNode :=
  n.childList.filter (fun c => c.isTag tag)

mutual
/-- XPath `//*` from a node: the node and all its element descendants, in
document (preorder) order. -/
def descElems : HNode → List HNode
  | .text _ => []
  | .elem t a cs => .elem t a cs :: descElemsF cs
def descElemsF : HForest → List HNode
  | .nil => []
  | .cons c cs => descElems c ++ descElemsF cs
end

/-- XPath `tag[k]` relative to an element (1-based positional step). -/
def nthChildTag (n : HNode) (tag : String) (k : Nat) : Option HNode :=
  (n.childElems tag).get? (k - 1)

/-! ## Session -/

/-- The hidden-field name the JSF application requires on every postback. -/
def vsKey : String := "javax.faces.ViewState"

def isViewstateInput (n : HNode) : Bool :=
  n.isTag "input" && n.attr "id" == some vsKey

/-- `Session._get_viewstate_from_request`: evaluate
`(//input[@id="javax.faces.ViewState"])[1]/@value` — the `value` attribute of
the first matching input in document order (an attribute axis yields nothing
when the attribute is missing) — and return its only entry, or `None` when
the list is empty. -/
def get_viewstate_from_request (t : HNode) : Option String :=
  let viewstates :=
    (((descElems t).filter isViewstateInput).take 1).filterMap (fun e => e.attr "value")
  match viewstates with
  | [] => none
  | v :: _ => some v

/-- The mutable state a `Session` object carries between requests: the stored
viewstate token (`None` before any response has been seen). The cookie jar and
base URL do not influence any claim and are left out. -/
structure Session where
  viewstate : Option String
deriving DecidableEq

/-- `Session.__init__` sets `self.viewstate = None` before any request. -/
def Session.initial : Session := ⟨none⟩

/-- `Session.do_post_request`: create `data` if absent, merge the stored
viewstate into it in place (`kwargs['data'].update(...)`), perform the POST
(the transport is external: `resp` is the response the server returns), then
overwrite the stored viewstate with whatever the new response yields — even
`None`. Returns the outgoing form data as the caller's mapping reads after
the call, and the new session state. -/
def do_post_request (st : Session) (data : List (String × Option String)) (resp : HNode) :
    List (String × Option String) × Session :=
  (pyDictUpdate data vsKey st.viewstate, ⟨get_viewstate_from_request resp⟩)

/-- The session state after a sequence of posts whose responses were `resps`
(form data does not influence the state transition). -/
def sessionAfter (resps : List HNode) : Session :=
  resps.foldl (fun st r => (do_post_request st [] r).2) Session.initial

/-- `LoginError`: carries the `value` passed to the constructor. -/
structure LoginError where
  value : String
deriving DecidableEq

/-- An element matching the XPath `//div[@class="error"]`: a `div` whose
`class` attribute is exactly the string "error". -/
def isErrorDiv (n : HNode) : Bool :=
  n.isTag "div" && n.attr "class" == some "error"

/-- `Session.login`: a first post to the login page with no data, then a post
of the credential form; the second response is scanned with
`//div[@class="error"]` and a nonempty result raises
`LoginError('Erro ao fazer login com o usuario {0}'.format(user))`.
`resp1`/`resp2` are the two responses the server returns; on success the
resulting session state is returned. -/
def login (st : Session) (user password : String) (resp1 resp2 : HNode) :
    Except LoginError Session :=
  let st1 := (do_post_request st [] resp1).2
  let data := [("formlogin", some "formlogin"), ("formlogin:login", some user),
               ("formlogin:senha", some password), ("formlogin:botaologar", some "Entrar")]
  let st2 := (do_post_request st1 data resp2).2
  let erros := (descElems resp2).filter isErrorDiv
  if erros.isEmpty then .ok st2
  else .error ⟨"Erro ao fazer login com o usuario " ++ user⟩

/-! ## Scraper -/

/-- XPath `//*[@id=selId]/option`: every element carrying the given id, then
its `option` children, in document order. -/
def selectOptions (t : HNode) (selId : String) : List HNode :=
  ((descElems t).filter (fun e => e.attr "id" == some selId)).flatMap
    (fun e => e.childElems "option")

/-- XPath `//*[@id=selId]/option/@value`: an option without a `value`
attribute contributes nothing. -/
def optionValues (t : HNode) (selId : String) : List String :=
  (selectOptions t selId).filterMap (fun o => o.attr "value")

/-- XPath `//*[@id=selId]/option/text()`: an option without text contributes
nothing, one with several text children contributes them all. -/
def optionTexts (t : HNode) (selId : String) : List String :=
  (selectOptions t selId).flatMap HNode.childTexts

/-- The dict comprehension shared by `get_matriculas` and `get_periodos`:
`{int(x[0]): x[1] for x in zip(vals, names) if x[1] != placeholder}`.
The filter runs before `int`, so a placeholder's value is never parsed;
`.error .valueError` is the `ValueError` a non-numeric value raises. -/
def dropdownDict (vals names : List String) (placeholder : String) :
    Except PyErr (List (Int × String)) :=
  (List.zip vals names).foldlM
    (fun acc x =>
      if x.2 == placeholder then .ok acc
      else
        match pyInt x.1 with
        | some i => .ok (pyDictUpdate acc i x.2)
        | none => .error .valueError)
    []

/-- `Scraper.get_matriculas`, parsing the response of the sidebar-menu post
(the post itself is the external transport): the `busca:matriculas` dropdown,
with the exact placeholder label excluded. -/
def get_matriculas (resp : HNode) : Except PyErr (List (Int × String)) :=
  dropdownDict (optionValues resp "busca:matriculas") (optionTexts resp "busca:matriculas")
    "Selecione um número de matrícula!"

/-- `Scraper.get_periodos`, parsing the response of the enrollment-selection
post: the `busca:periodoLetivo` dropdown, with its placeholder excluded. -/
def get_periodos (resp : HNode) : Except PyErr (List (Int × String)) :=
  dropdownDict (optionValues resp "busca:periodoLetivo") (optionTexts resp "busca:periodoLetivo")
    "Selecione um período letivo"

/-- XPath `//table/tbody[@id="busca:classes:tb"]/tr`: the grade-table rows. -/
def diarioRows (t : HNode) : List HNode :=
  (((descElems t).filter (fun e => e.isTag "table")).flatMap
      (fun tb => (tb.childElems "tbody").filter (fun b => b.attr "id" == some "busca:classes:tb"))).flatMap
    (fun b => b.childElems "tr")

/-- Python `s[14:-1]`, the fixed trim `get_diario` applies to a course name. -/
def pySlice14m1 (s : String) : String :=
  ⟨((s.data.drop 14).reverse.drop 1).reverse⟩

/-- `td[k]/text()` relative to a row. -/
def rowTexts (row : HNode) (k : Nat) : List String :=
  match nthChildTag row "td" k with
  | none => []
  | some td => td.childTexts

/-- `td[3]/div/div/text()` relative to a row. -/
def rowDivDivTexts (row : HNode) : List String :=
  match nthChildTag row "td" 3 with
  | none => []
  | some td => (td.childElems "div").flatMap (fun d => (d.childElems "div").flatMap HNode.childTexts)

/-- `td[4]/label/text()` relative to a row. -/
def rowLabelTexts (row : HNode) : List String :=
  match nthChildTag row "td" 4 with
  | none => []
  | some td => (td.childElems "label").flatMap HNode.childTexts

/-- The loop body of `get_diario` for one table row: name from column 1
(`[0][14:-1]`), raw grade strings from column 3 (each stripped), final average
from column 4 (stripped, `float`ed), status from column 6 (stripped), then the
`Disciplina` constructor. `none` is any raised exception (`IndexError` on a
missing `[0]`, `ValueError` from `float`). `oid` is the fresh object identity
of the row's `Disciplina`. -/
def parseRow (oid : Nat) (row : HNode) : Option Disciplina := do
  let nomeRaw ← (rowTexts row 1).head?
  let nome := pySlice14m1 nomeRaw
  let notas := (rowDivDivTexts row).map pyStrip
  let mfRaw ← (rowLabelTexts row).head?
  let mf ← pyFloat (pyStrip mfRaw)
  let statusRaw ← (rowTexts row 6).head?
  Disciplina.init oid nome notas mf (pyStrip statusRaw)

/-- `Scraper.get_diario`, parsing the response of the term-selection post:
builds a fresh `Diario` and adds one freshly-constructed `Disciplina` per
table row. `none` is a raised exception inside the loop. -/
def get_diario (resp : HNode) : Option Diario :=
  (diarioRows resp).enum.foldlM
    (fun (dio : Diario) x => (parseRow x.1 x.2).map dio.add_disciplina) Diario.init

/-- The successful payload of a listing stage (`[]` on an error, which the
claims never reach). -/
def exceptDict : Except PyErr (List (Int × String)) → List (Int × String)
  | .ok m => m
  | .error _ => []

/-- Whether a listing stage completed without raising. -/
def exceptIsOk : Except PyErr (List (Int × String)) → Bool
  | .ok _ => true
  | .error _ => false

/-- The grade-string parsing algorithm as the spec's words describe it,
kept for the refinement comparison with `processar_nota`: split the raw
string on the literal `" - "`; with 2 separator occurrences (three parts)
discard the leading row number; with 1 occurrence keep both parts; strip the
literal `"Média: "` prefix from the value part and parse the rest as a float;
with 0 occurrences the entire string is the label and the value is null.
Shapes the spec leaves undescribed (3 or more separators) yield `none`. -/
def stripMediaPre (s : String) : String :=
  if "Média: ".data.isPrefixOf s.data then ⟨s.data.drop "Média: ".data.length⟩ else s

def specProcessarNota (nota : String) : Option (String × Option ℚ) :=
  match pySplit nota " - " with
  | [_, nome, valor] => (pyFloat (stripMediaPre valor)).map (fun v => (nome, some v))
  | [nome, valor] => (pyFloat (stripMediaPre valor)).map (fun v => (nome, some v))
  | [nome] => some (nome, none)
  | _ => none

/-! ## Concrete pages and records used by the witnesses and counterexamples -/

/-- A page carrying a hidden viewstate input with value `j_id1`. -/
def pagA : HNode :=
  el "html" []
    [el "input" [("type", "hidden"), ("id", "javax.faces.ViewState"), ("value", "j_id1")] []]

/-- A page with none of the structures any stage looks for. -/
def semDadosPage : HNode := el "html" [] [el "body" [] [tx "sem dados"]]

/-- A login response whose error indicator is a `span`, not a `div`. -/
def spanErrorPage : HNode :=
  el "html" [] [el "body" [] [el "span" [("class", "error")] [tx "Usuário ou senha incorretos"]]]

/-- A login response with the `div class="error"` indicator the code matches. -/
def divErrorPage : HNode :=
  el "html" [] [el "body" [] [el "div" [("class", "error")] [tx "Usuário ou senha incorretos"]]]

/-- A page whose viewstate-id input is of type `text`, not `hidden`. -/
def textInputPage : HNode :=
  el "html" []
    [el "body" [] [el "input" [("type", "text"), ("id", "javax.faces.ViewState"), ("value", "X")] []]]

/-- An enrollment page whose placeholder option carries no `value` attribute,
misaligning the two XPath result lists the source zips. -/
def valuelessPlaceholderPage : HNode :=
  el "form" []
    [el "select" [("id", "busca:matriculas")]
      [el "option" [] [tx "Selecione um número de matrícula!"],
       el "option" [("value", "123")] [tx "2020 - Curso X"]]]

/-- A page with both dropdowns well-formed, the enrollment one carrying a
duplicated id. -/
def bothDropsPage : HNode :=
  el "form" []
    [el "select" [("id", "busca:matriculas")]
      [el "option" [("value", "0")] [tx "Selecione um número de matrícula!"],
       el "option" [("value", "7")] [tx "A"],
       el "option" [("value", "7")] [tx "B"]],
     el "select" [("id", "busca:periodoLetivo")]
      [el "option" [("value", "0")] [tx "Selecione um período letivo"],
       el "option" [("value", "42")] [tx "2020.1"]]]

def pairsM0 : List (String × String) :=
  [("0", "Selecione um número de matrícula!"), ("7", "A"), ("7", "B")]

def pairsP0 : List (String × String) :=
  [("0", "Selecione um período letivo"), ("42", "2020.1")]

/-- The spec's three-bimester example record. -/
def mediasDisc : Disciplina :=
  ⟨0, "Artes",
    [("Bimestre 1", some (mkRat 7 1)), ("Bimestre 2", some (mkRat 8 1)),
     ("Bimestre 3", some (mkRat 9 1))],
    mkRat 8 1, "Aprovado"⟩

/-- A record with five bimester grades, constructed through the real
constructor. -/
def cincoBimestres : Option Disciplina :=
  Disciplina.init 0 "Química"
    ["1 - 1 Bimestre - Média: 7.0", "2 - 2 Bimestre - Média: 8.0",
     "3 - 3 Bimestre - Média: 9.0", "4 - 4 Bimestre - Média: 6.5",
     "5 - 5 Bimestre - Média: 6.0"]
    (mkRat 73 10) "Aprovado"

/-- Two distinct objects (`oid` 0 and 1) with the same course name. -/
def discA : Disciplina := ⟨0, "Matemática", [], mkRat 8 1, "Aprovado"⟩

def discB : Disciplina := ⟨1, "Matemática", [], mkRat 6 1, "Reprovado"⟩

/-- A report holding one course record. -/
def diarioUmaDisc : Diario :=
  ⟨[⟨0, "Matemática", [("1 Bimestre", some (mkRat 17 2))], mkRat 17 2, "Aprovado"⟩]⟩

/-! ## General lemmas on the Python dict model -/

theorem pyLookup_update_self {α β : Type} [DecidableEq α] (d : List (α × β)) (k : α) (v : β) :
    pyLookup (pyDictUpdate d k v) k = some v := by
  induction d with
  | nil => simp [pyDictUpdate, pyLookup]
  | cons p ps ih =>
    by_cases hp : p.1 = k
    · simp [pyDictUpdate, pyLookup, hp]
    · simp [pyDictUpdate, pyLookup, hp, ih]

theorem pyLookup_update_ne {α β : Type} [DecidableEq α] (d : List (α × β)) (k k' : α) (v : β)
    (h : k' ≠ k) :
    pyLookup (pyDictUpdate d k v) k' = pyLookup d k' := by
  induction d with
  | nil => simp [pyDictUpdate, pyLookup, Ne.symm h]
  | cons p ps ih =>
    by_cases hp : p.1 = k
    · simp [pyDictUpdate, pyLookup, hp, Ne.symm h]
    · by_cases hp' : p.1 = k'
      · simp [pyDictUpdate, pyLookup, hp, hp', h]
      · simp [pyDictUpdate, pyLookup, hp, hp', ih]

/-! ## Session lemmas -/

/-- The state transition of `do_post_request` forgets the previous state:
prefixing a nonempty response sequence does not change where a session ends
up. -/
theorem sessionAfter_cons (r x : HNode) (xs : List HNode) :
    sessionAfter (r :: x :: xs) = sessionAfter (x :: xs) := rfl

/-- After the responses `resps.take (n + 1)`, the stored viewstate is exactly
what the tracker extracted from response `n`. -/
theorem sessionAfter_take_succ (resps : List HNode) (n : Nat) (h : n < resps.length) :
    sessionAfter (resps.take (n + 1)) = ⟨get_viewstate_from_request (resps.get ⟨n, h⟩)⟩ := by
  induction resps generalizing n with
  | nil => exact absurd h (Nat.not_lt_zero n)
  | cons r rs ih =>
    cases n with
    | zero => rfl
    | succ m =>
      have hm : m < rs.length := Nat.lt_of_succ_lt_succ h
      cases rs with
      | nil => exact absurd hm (Nat.not_lt_zero m)
      | cons x xs =>
        show sessionAfter (r :: (x :: xs).take (m + 1)) = _
        have htake : (x :: xs).take (m + 1) = x :: xs.take m := rfl
        rw [htake, sessionAfter_cons, ← htake, ih m hm]
        rfl

/-! ## Claim C1 -/

/-- C1: within one Session, the viewstate carried by the outgoing form data of
request N+1 equals the token the tracker extracted from the response of
request N; after every post the stored token is overwritten with the value
extracted from the new response, even when that value is absent
(last-response-wins); a request made before any viewstate is known carries
the absent value (`None`, which the transport encodes as an omitted field). -/
theorem c1_viewstate_replay (resps : List HNode) (data : List (String × Option String))
    (resp' : HNode) (n : Nat) (h : n < resps.length) :
    pyLookup (do_post_request (sessionAfter (resps.take (n + 1))) data resp').1 vsKey
      = some (get_viewstate_from_request (resps.get ⟨n, h⟩)) ∧
    (∀ (st : Session) (d : List (String × Option String)) (r : HNode),
      (do_post_request st d r).2 = ⟨get_viewstate_from_request r⟩) ∧
    pyLookup (do_post_request Session.initial data resp').1 vsKey = some none := by
  refine ⟨?_, fun st d r => rfl, ?_⟩
  · rw [sessionAfter_take_succ resps n h]
    exact pyLookup_update_self data vsKey _
  · exact pyLookup_update_self data vsKey none

/-- C1 witness: with a first response carrying viewstate `j_id1` and a second
carrying none, request 1 (after one response) replays `j_id1`, and request 0
(before any response) carries the absent value. -/
theorem c1_viewstate_replay_witness :
    pyLookup (do_post_request (sessionAfter ([pagA, semDadosPage].take 1)) [] semDadosPage).1 vsKey
      = some (some "j_id1") ∧
    pyLookup (do_post_request Session.initial [] semDadosPage).1 vsKey = some none := by
  have h := c1_viewstate_replay [pagA, semDadosPage] [] semDadosPage 0 (by decide)
  exact ⟨h.1.trans (by decide), h.2.2⟩

/-! ## Claim C10 -/

/-- C10: `do_post_request` mutates the caller-supplied form-data mapping in
place: after the call the mapping holds `javax.faces.ViewState` bound to the
session's stored token as of call time, and every other key is unchanged.
(The in-place Python mutation is modelled by returning the mapping as the
caller's object reads after the call.) -/
theorem c10_data_mutation (st : Session) (data : List (String × Option String))
    (resp : HNode) (k : String) (hk : k ≠ vsKey) :
    pyLookup (do_post_request st data resp).1 vsKey = some st.viewstate ∧
    pyLookup (do_post_request st data resp).1 k = pyLookup data k := by
  exact ⟨pyLookup_update_self data vsKey st.viewstate,
    pyLookup_update_ne data vsKey k st.viewstate hk⟩

/-- C10 witness: a concrete call with the login form data. -/
theorem c10_data_mutation_witness :
    pyLookup (do_post_request Session.initial [("formlogin", some "formlogin")] pagA).1 vsKey
      = some none ∧
    pyLookup (do_post_request Session.initial [("formlogin", some "formlogin")] pagA).1 "formlogin"
      = pyLookup [("formlogin", some "formlogin")] "formlogin" := by
  exact c10_data_mutation Session.initial [("formlogin", some "formlogin")] pagA "formlogin"
    (by decide)

/-! ## Claim C4 -/

/-- C4 counterexample: a record with five bimester grades (built through the
real constructor) yields a five-slot list, not the claimed "exactly 4 slots":
`[None]*(4-5)` is empty in Python, so nothing truncates or pads the result. -/
theorem c4_five_bimester_counterexample :
    cincoBimestres.map (fun d => d.get_medias.map List.length) = some (some 5) ∧
    cincoBimestres.map Disciplina.get_medias =
      some (some [some (mkRat 7 1), some (mkRat 8 1), some (mkRat 9 1),
        some (mkRat 13 2), some (mkRat 6 1)]) := by
  exact ⟨by decide, by decide⟩

/-- C4 (amended): `get_medias` classifies by the strictly greater count of
'bimestre'- vs 'trimestre'-containing keys; the winning mode's values come
back in insertion order, right-padded with null up to 4 (bimonthly) or 3
(trimonthly) slots only when the count does not exceed that slot count —
in general the length is `max slots count`, so more keys than slots yield a
longer, unpadded list; equal counts (including both zero) give the explicit
absent result, not an exception. -/
theorem c4_get_medias_amended (d : Disciplina) :
    ((bimNotas d).length > (triNotas d).length →
      d.get_medias =
        some ((bimNotas d).map Prod.snd ++ List.replicate (4 - (bimNotas d).length) none) ∧
      d.get_medias.map List.length = some (max 4 (bimNotas d).length)) ∧
    ((triNotas d).length > (bimNotas d).length →
      d.get_medias =
        some ((triNotas d).map Prod.snd ++ List.replicate (3 - (triNotas d).length) none) ∧
      d.get_medias.map List.length = some (max 3 (triNotas d).length)) ∧
    ((bimNotas d).length = (triNotas d).length → d.get_medias = none) := by
  refine ⟨fun hb => ?_, fun ht => ?_, fun he => ?_⟩
  · have hgm : d.get_medias =
        some ((bimNotas d).map Prod.snd ++ List.replicate (4 - (bimNotas d).length) none) := by
      simp [Disciplina.get_medias, hb]
    refine ⟨hgm, ?_⟩
    rw [hgm]
    simp only [Option.map_some', List.length_append, List.length_map, List.length_replicate,
      Option.some.injEq]
    omega
  · have hnb : ¬ (bimNotas d).length > (triNotas d).length := by omega
    have hgm : d.get_medias =
        some ((triNotas d).map Prod.snd ++ List.replicate (3 - (triNotas d).length) none) := by
      simp [Disciplina.get_medias, hnb, ht]
    refine ⟨hgm, ?_⟩
    rw [hgm]
    simp only [Option.map_some', List.length_append, List.length_map, List.length_replicate,
      Option.some.injEq]
    omega
  · have h1 : ¬ (bimNotas d).length > (triNotas d).length := by omega
    have h2 : ¬ (triNotas d).length > (bimNotas d).length := by omega
    simp [Disciplina.get_medias, h1, h2]

/-- C4 witness: the spec's own bimonthly example, `{"Bimestre 1": 7.0,
"Bimestre 2": 8.0, "Bimestre 3": 9.0}`, gives `[7.0, 8.0, 9.0, null]`. -/
theorem c4_get_medias_witness :
    mediasDisc.get_medias = some [some (mkRat 7 1), some (mkRat 8 1), some (mkRat 9 1), none] := by
  have h := ((c4_get_medias_amended mediasDisc).1 (by decide)).1
  exact h.trans (by decide)

/-! ## Claim C5 -/

/-- C5 counterexample: the claim says the string is split on the separator and
only the `"Média: "` prefix of the value is stripped; the code instead removes
every occurrence of `"Média: "` from the whole string before splitting. On
`"1 - Média: X - Média: 8.5"` the algorithm of the claim keeps the label
`"Média: X"` while the code returns label `"X"`. -/
theorem c5_media_label_counterexample :
    processar_nota "1 - Média: X - Média: 8.5" = some ("X", some (mkRat 17 2)) ∧
    specProcessarNota "1 - Média: X - Média: 8.5" = some ("Média: X", some (mkRat 17 2)) ∧
    ("X" : String) ≠ "Média: X" := by
  exact ⟨by decide, by decide, by decide⟩

/-- C5 (amended): parsing is selected by the number of `" - "` occurrences in
the raw string, but every occurrence of `"Média: "` anywhere in the string is
removed first, and only then is the (modified) string split: with 2
occurrences the three parts lose the leading row number and give
`(label, float value)`; with 1 occurrence the two parts give the same; with
any other count the entire raw string is the label with a null value. (When
the removal changes the separator count, the two-element unpacking raises —
the hypotheses below pin the split shape.) -/
theorem c5_procnota_amended (s : String) :
    (∀ r a b, pyCount s " - " = 2 →
      pySplit (pyReplace s "Média: " "") " - " = [r, a, b] →
      processar_nota s = (pyFloat b).map (fun v => (a, some v))) ∧
    (∀ a b, pyCount s " - " = 1 →
      pySplit (pyReplace s "Média: " "") " - " = [a, b] →
      processar_nota s = (pyFloat b).map (fun v => (a, some v))) ∧
    (pyCount s " - " ≠ 1 → pyCount s " - " ≠ 2 → processar_nota s = some (s, none)) := by
  refine ⟨?_, ?_, ?_⟩
  · intro r a b h2 hsp
    simp [processar_nota, h2, hsp]
  · intro a b h1 hsp
    simp [processar_nota, h1, hsp]
  · intro h1 h2
    simp [processar_nota, h1, h2]

/-- C5 witness: the spec's three examples, derived through the amended
theorem: `"1 - 1 Bimestre - Média: 8.5"` → `("1 Bimestre", 8.5)`,
`"1º trimestre - Média: 8.5"` → `("1º trimestre", 8.5)`,
`"Recuperação"` → `("Recuperação", null)`. -/
theorem c5_procnota_witness :
    processar_nota "1 - 1 Bimestre - Média: 8.5" = some ("1 Bimestre", some (mkRat 17 2)) ∧
    processar_nota "1º trimestre - Média: 8.5" = some ("1º trimestre", some (mkRat 17 2)) ∧
    processar_nota "Recuperação" = some ("Recuperação", none) := by
  refine ⟨?_, ?_, ?_⟩
  · exact ((c5_procnota_amended "1 - 1 Bimestre - Média: 8.5").1 "1" "1 Bimestre" "8.5"
      (by decide) (by decide)).trans (by decide)
  · exact ((c5_procnota_amended "1º trimestre - Média: 8.5").2.1 "1º trimestre" "8.5"
      (by decide) (by decide)).trans (by decide)
  · exact (c5_procnota_amended "Recuperação").2.2 (by decide) (by decide)

/-! ## Claim C8 -/

/-- C8 counterexample: `Disciplina` defines neither `__eq__` nor `__hash__`,
so the report's set deduplicates by object identity; adding two distinct
objects with the same course name leaves the report holding both, not "only
one instance for that name". -/
theorem c8_same_name_counterexample :
    ((Diario.init.add_disciplina discA).add_disciplina discB).disciplinas.countP
      (fun x => x.nome == "Matemática") = 2 := by decide

/-- C8 (amended): within a report, `CourseRecord` identity is by object
identity, not by name: adding the same object twice retains one instance,
while adding two distinct objects retains both regardless of their names. -/
theorem c8_object_identity_amended (rep : Diario) (x y : Disciplina) :
    ((rep.add_disciplina x).add_disciplina x = rep.add_disciplina x) ∧
    (¬ x.oid = y.oid → (Diario.init.add_disciplina x).add_disciplina y = ⟨[x, y]⟩) := by
  constructor
  · by_cases hmem : rep.disciplinas.any (fun z => z.oid == x.oid) = true
    · simp [Diario.add_disciplina, hmem]
    · simp [Diario.add_disciplina, hmem, List.any_append]
  · intro hne
    simp [Diario.add_disciplina, Diario.init, hne]

/-- C8 witness: the two same-named records `discA`, `discB` (distinct object
identities): re-adding `discA` changes nothing, while adding `discB` after
`discA` retains both. -/
theorem c8_object_identity_witness :
    ((Diario.init.add_disciplina discA).add_disciplina discA
      = Diario.init.add_disciplina discA) ∧
    (Diario.init.add_disciplina discA).add_disciplina discB = ⟨[discA, discB]⟩ := by
  have h := c8_object_identity_amended Diario.init discA discB
  exact ⟨h.1, h.2 (by decide)⟩

/-! ## Claim C9 -/

/-- C9: evaluation of the code at the failing input. `del_disciplina` removes
inside a `for` loop over the very set it mutates, so as soon as one record
matches the name, the next iterator step raises `RuntimeError` ("Set changed
size during iteration") — removal never "completes without error" on a report
that actually contains the name. When no record matches, the loop completes
and the report is unchanged; lookup by name does return the record with that
name when one exists. -/
theorem c9_del_disciplina_runtime_error :
    diarioUmaDisc.del_disciplina "Matemática" = .error .runtimeError ∧
    diarioUmaDisc.del_disciplina "Física" = .ok diarioUmaDisc ∧
    diarioUmaDisc.get_disciplina "Matemática" =
      some ⟨0, "Matemática", [("1 Bimestre", some (mkRat 17 2))], mkRat 17 2, "Aprovado"⟩ := by
  exact ⟨rfl, rfl, rfl⟩

/-! ## Claim C3 -/

/-- C3 counterexample: the XPath checked is `//div[@class="error"]`, so a
response whose error indicator is a `span` with class "error" — an element
with an "error" class — does not raise: login returns normally. -/
theorem c3_error_span_counterexample :
    login Session.initial "alice" "senha" semDadosPage spanErrorPage = .ok ⟨none⟩ ∧
    (descElems spanErrorPage).any (fun n => n.attr "class" == some "error") = true := by
  exact ⟨rfl, rfl⟩

/-- C3 (amended): login raises `LoginError` carrying the attempted username
(in its formatted message) if and only if the credential response contains a
`div` element whose `class` attribute is exactly "error"; otherwise it
returns normally. On a raise, the exception propagates out of
`Session.__init__`, so no authenticated session object exists afterwards. -/
theorem c3_login_error_amended (st : Session) (user password : String) (r1 r2 : HNode) :
    ((∃ e, login st user password r1 r2 = .error e) ↔
      ∃ n ∈ descElems r2, isErrorDiv n = true) ∧
    (∀ e, login st user password r1 r2 = .error e →
      e.value = "Erro ao fazer login com o usuario " ++ user) := by
  have hform : login st user password r1 r2 =
      if ((descElems r2).filter isErrorDiv).isEmpty then
        .ok ⟨get_viewstate_from_request r2⟩
      else .error ⟨"Erro ao fazer login com o usuario " ++ user⟩ := rfl
  have hkey : ((descElems r2).filter isErrorDiv).isEmpty = true ↔
      ¬ ∃ n ∈ descElems r2, isErrorDiv n = true := by
    rw [List.isEmpty_iff, List.filter_eq_nil_iff]
    simp
  by_cases hemp : ((descElems r2).filter isErrorDiv).isEmpty = true
  · rw [hform, if_pos hemp]
    refine ⟨⟨fun ⟨e, he⟩ => absurd he (by simp), fun hex => absurd hex (hkey.mp hemp)⟩,
      fun e he => absurd he (by simp)⟩
  · rw [hform, if_neg hemp]
    refine ⟨⟨fun _ => ?_, fun _ => ⟨_, rfl⟩⟩, fun e he => ?_⟩
    · by_contra hno
      exact hemp (hkey.mpr hno)
    · injection he with h
      rw [← h]

/-- C3 witness: on a response with the `div class="error"` indicator the
login fails and the error value carries the attempted username. -/
theorem c3_login_error_witness :
    login Session.initial "bob" "senha" semDadosPage divErrorPage =
      .error ⟨"Erro ao fazer login com o usuario bob"⟩ ∧
    (⟨"Erro ao fazer login com o usuario bob"⟩ : LoginError).value =
      "Erro ao fazer login com o usuario " ++ "bob" := by
  refine ⟨rfl, ?_⟩
  exact (c3_login_error_amended Session.initial "bob" "senha" semDadosPage divErrorPage).2
    ⟨"Erro ao fazer login com o usuario bob"⟩ rfl

/-! ## Claim C6 -/

/-- C6 counterexample: the XPath `(//input[@id="javax.faces.ViewState"])[1]`
does not check `type="hidden"`; a page whose only match is a `text` input —
a page with no hidden viewstate input — still yields its value rather than
the absent marker. -/
theorem c6_nonhidden_input_counterexample :
    get_viewstate_from_request textInputPage = some "X" ∧
    (descElems textInputPage).all
      (fun n => !(n.isTag "input" && n.attr "type" == some "hidden"
        && n.attr "id" == some "javax.faces.ViewState")) = true := by
  exact ⟨rfl, rfl⟩

/-- C6 (amended): the tracker is a total function of the parsed response (the
HTML parser itself is an external collaborator): it returns the `value`
attribute of the first `input` element of any type whose id is
`javax.faces.ViewState` (absent when that input has no `value` attribute),
and the explicit absent marker whenever no such input exists. -/
theorem c6_tracker_amended (t : HNode) :
    get_viewstate_from_request t
      = ((descElems t).find? isViewstateInput).bind (fun e => e.attr "value") ∧
    ((∀ n ∈ descElems t, isViewstateInput n = false) → get_viewstate_from_request t = none) := by
  have main : ∀ l : List HNode,
      (match ((l.filter isViewstateInput).take 1).filterMap (fun e => e.attr "value") with
        | [] => none
        | v :: _ => some v)
        = (l.find? isViewstateInput).bind (fun e => e.attr "value") := by
    intro l
    induction l with
    | nil => rfl
    | cons x xs ih =>
      by_cases hx : isViewstateInput x = true
      · rw [List.filter_cons_of_pos hx, List.find?_cons_of_pos _ hx]
        cases hv : x.attr "value" <;>
          simp [List.take_succ_cons, List.take_zero, List.filterMap, hv]
      · rw [List.filter_cons_of_neg hx, List.find?_cons_of_neg _ hx]
        exact ih
  constructor
  · exact main (descElems t)
  · intro h
    have hnone : (descElems t).find? isViewstateInput = none :=
      List.find?_eq_none.mpr (fun x hx => by simp [h x hx])
    rw [show get_viewstate_from_request t =
      ((descElems t).find? isViewstateInput).bind (fun e => e.attr "value") from main _]
    rw [hnone]
    rfl

/-- C6 witness: a page with no viewstate input at all yields the absent
marker. -/
theorem c6_tracker_witness : get_viewstate_from_request semDadosPage = none := by
  exact (c6_tracker_amended semDadosPage).2 (by decide)

/-! ## Claim C2 -/

/-- C2 counterexample: the source defines no `MissingSelectionData` (or any
error) for a missing dropdown or grade table: on a response with none of the
expected structures, `get_matriculas` and `get_periodos` return an empty
mapping and `get_diario` returns an empty report — normal results reported to
the caller, with no exception. -/
theorem c2_missing_structures_counterexample :
    get_matriculas semDadosPage = .ok [] ∧
    get_periodos semDadosPage = .ok [] ∧
    get_diario semDadosPage = some ⟨[]⟩ := by
  exact ⟨rfl, rfl, rfl⟩

/-- C2 (amended): for every response in which the expected dropdown or
grade-table structure is absent, the corresponding stage returns a normal
empty result (empty mapping / empty report) rather than failing with any
condition; no `MissingSelectionData` exists in the code. -/
theorem c2_empty_result_amended (t : HNode) :
    (selectOptions t "busca:matriculas" = [] → get_matriculas t = .ok []) ∧
    (selectOptions t "busca:periodoLetivo" = [] → get_periodos t = .ok []) ∧
    (diarioRows t = [] → get_diario t = some ⟨[]⟩) := by
  refine ⟨fun h => ?_, fun h => ?_, fun h => ?_⟩
  · simp [get_matriculas, optionValues, optionTexts, h, dropdownDict, pure, Except.pure]
  · simp [get_periodos, optionValues, optionTexts, h, dropdownDict, pure, Except.pure]
  · simp [get_diario, h, Diario.init]

/-- C2 witness: the amended theorem applied to a structure-free response. -/
theorem c2_empty_result_witness :
    get_matriculas (el "html" [] [tx "vazio"]) = .ok [] ∧
    get_periodos (el "html" [] [tx "vazio"]) = .ok [] ∧
    get_diario (el "html" [] [tx "vazio"]) = some ⟨[]⟩ := by
  have h := c2_empty_result_amended (el "html" [] [tx "vazio"])
  exact ⟨h.1 rfl, h.2.1 rfl, h.2.2 rfl⟩

/-! ## Claim C7 -/

/-- C7 counterexample: `get_matriculas` zips two independent XPath result
lists (values and texts). When the placeholder option carries no `value`
attribute — so the page's non-placeholder option `("123", "2020 - Curso X")`
is paired with the placeholder label — the mapping comes out empty: it does
not "exclude exactly the options whose label equals the placeholder". -/
theorem c7_misaligned_option_counterexample :
    get_matriculas valuelessPlaceholderPage = .ok [] ∧
    (selectOptions valuelessPlaceholderPage "busca:matriculas").map
      (fun o => (o.attr "value", o.childTexts)) =
        [(none, ["Selecione um número de matrícula!"]), (some "123", ["2020 - Curso X"])] := by
  exact ⟨rfl, rfl⟩


theorem zip_map_fst_snd {α β : Type} (l : List (α × β)) :
    List.zip (l.map Prod.fst) (l.map Prod.snd) = l := by
  induction l with
  | nil => rfl
  | cons p ps ih => simp [List.zip_cons_cons, ih]

theorem getLast?_cons_or {α : Type} (a : α) (l : List α) :
    (a :: l).getLast? = match l.getLast? with
      | some v => some v
      | none => some a := by
  cases l with
  | nil => rfl
  | cons b t =>
    rw [List.getLast?_cons_cons]
    cases h : (b :: t).getLast? with
    | none => simp [List.getLast?_eq_none_iff] at h
    | some v => rfl

/-- The loop body of the listing comprehension, named for the proofs;
`dropdownDict vals names ph` is definitionally `(zip vals names).foldlM
(dropStep ph) []`. -/
def dropStep (ph : String) (acc : List (Int × String)) (x : String × String) :
    Except PyErr (List (Int × String)) :=
  if x.2 == ph then Except.ok acc
  else
    match pyInt x.1 with
    | some i => Except.ok (pyDictUpdate acc i x.2)
    | none => Except.error PyErr.valueError

theorem dropdownDict_eq (vals names : List String) (ph : String) :
    dropdownDict vals names ph = (List.zip vals names).foldlM (dropStep ph) [] := rfl

/-- The listing fold, characterized: provided every non-placeholder value
parses as an integer, the fold succeeds, and a lookup at id `i` returns the
label of the last pair carrying id `i`, falling back to the accumulator. -/
theorem dropFold_char (ph : String) (pairs : List (String × String))
    (acc : List (Int × String))
    (hp : ∀ p ∈ pairs, ¬ p.2 = ph → (pyInt p.1).isSome = true) :
    ∃ m, pairs.foldlM (dropStep ph) acc = Except.ok m ∧
      ∀ i : Int, pyLookup m i =
        (match ((pairs.filter
            (fun p => !(p.2 == ph) && (pyInt p.1 == some i))).map Prod.snd).getLast? with
          | some v => some v
          | none => pyLookup acc i) := by
  induction pairs generalizing acc with
  | nil => exact ⟨acc, rfl, fun i => rfl⟩
  | cons p ps ih =>
    by_cases hph : p.2 = ph
    · have hb : (p.2 == ph) = true := beq_iff_eq.mpr hph
      obtain ⟨m, hm, hl⟩ := ih acc (fun q hq => hp q (List.mem_cons_of_mem _ hq))
      have hstep : (p :: ps).foldlM (dropStep ph) acc = ps.foldlM (dropStep ph) acc := by
        rw [List.foldlM_cons, show dropStep ph acc p = Except.ok acc from by
          simp [dropStep, hb]]
        rfl
      refine ⟨m, hstep.trans hm, fun i => ?_⟩
      rw [hl i]
      have hfil : (p :: ps).filter (fun q => !(q.2 == ph) && (pyInt q.1 == some i))
          = ps.filter (fun q => !(q.2 == ph) && (pyInt q.1 == some i)) := by
        simp [List.filter_cons, hb]
      rw [hfil]
    · have hb : (p.2 == ph) = false := beq_eq_false_iff_ne.mpr hph
      obtain ⟨j, hj⟩ := Option.isSome_iff_exists.mp (hp p (List.mem_cons_self _ _) hph)
      obtain ⟨m, hm, hl⟩ := ih (pyDictUpdate acc j p.2)
        (fun q hq => hp q (List.mem_cons_of_mem _ hq))
      have hstep : (p :: ps).foldlM (dropStep ph) acc
          = ps.foldlM (dropStep ph) (pyDictUpdate acc j p.2) := by
        rw [List.foldlM_cons, show dropStep ph acc p = Except.ok (pyDictUpdate acc j p.2) from by
          simp [dropStep, hb, hj]]
        rfl
      refine ⟨m, hstep.trans hm, fun i => ?_⟩
      rw [hl i]
      by_cases hij : i = j
      · subst hij
        have hji : (pyInt p.1 == some i) = true := by rw [hj]; exact beq_self_eq_true _
        have hfil : (p :: ps).filter (fun q => !(q.2 == ph) && (pyInt q.1 == some i))
            = p :: ps.filter (fun q => !(q.2 == ph) && (pyInt q.1 == some i)) := by
          simp [List.filter_cons, hb, hji]
        rw [hfil, List.map_cons, getLast?_cons_or]
        cases hrest : ((ps.filter
            (fun q => !(q.2 == ph) && (pyInt q.1 == some i))).map Prod.snd).getLast? with
        | some v => simp [hrest]
        | none => simp [hrest, pyLookup_update_self]
      · have hji : (pyInt p.1 == some i) = false := by
          rw [hj]
          simp [Ne.symm hij]
        have hfil : (p :: ps).filter (fun q => !(q.2 == ph) && (pyInt q.1 == some i))
            = ps.filter (fun q => !(q.2 == ph) && (pyInt q.1 == some i)) := by
          simp [List.filter_cons, hji]
        rw [hfil]
        cases hrest : ((ps.filter
            (fun q => !(q.2 == ph) && (pyInt q.1 == some i))).map Prod.snd).getLast? with
        | some v => simp [hrest]
        | none => simp [hrest, pyLookup_update_ne acc j i p.2 hij]

/-- When every option of the dropdown carries a `value` attribute and exactly
one text node (`pairs` lists them), the two XPath result lists align. -/
theorem selectOptions_aligned (t : HNode) (selId : String) (pairs : List (String × String))
    (hwf : (selectOptions t selId).map (fun o => (o.attr "value", o.childTexts))
        = pairs.map (fun p => (some p.1, [p.2]))) :
    optionValues t selId = pairs.map Prod.fst ∧ optionTexts t selId = pairs.map Prod.snd := by
  unfold optionValues optionTexts
  revert hwf
  generalize selectOptions t selId = l
  intro hwf
  induction l generalizing pairs with
  | nil =>
    cases pairs with
    | nil => exact ⟨rfl, rfl⟩
    | cons q qs => simp at hwf
  | cons o os ih =>
    cases pairs with
    | nil => simp at hwf
    | cons q qs =>
      simp only [List.map_cons, List.cons.injEq, Prod.mk.injEq] at hwf
      obtain ⟨⟨hv, ht⟩, hrest⟩ := hwf
      obtain ⟨ih1, ih2⟩ := ih qs hrest
      constructor
      · simp [List.filterMap_cons, hv, ih1]
      · simp [List.flatMap_cons, ht, ih2]

/-- C7 (amended): for every listing response in which each option element of
the dropdown carries a `value` attribute and exactly one text node (the
`pairs` hypotheses) and every non-placeholder value parses as an integer, the
stage succeeds and the mapping excludes exactly the placeholder-labelled
options, keys every other option by its integer-parsed value, and on
duplicate ids retains the label of the last occurrence. -/
theorem c7_dropdown_amended (t : HNode) (pairsM pairsP : List (String × String))
    (hwfM : (selectOptions t "busca:matriculas").map (fun o => (o.attr "value", o.childTexts))
        = pairsM.map (fun p => (some p.1, [p.2])))
    (hpM : ∀ p ∈ pairsM, ¬ p.2 = "Selecione um número de matrícula!" → (pyInt p.1).isSome = true)
    (hwfP : (selectOptions t "busca:periodoLetivo").map (fun o => (o.attr "value", o.childTexts))
        = pairsP.map (fun p => (some p.1, [p.2])))
    (hpP : ∀ p ∈ pairsP, ¬ p.2 = "Selecione um período letivo" → (pyInt p.1).isSome = true) :
    exceptIsOk (get_matriculas t) = true ∧
    (∀ i : Int, pyLookup (exceptDict (get_matriculas t)) i =
      ((pairsM.filter (fun p => !(p.2 == "Selecione um número de matrícula!")
          && (pyInt p.1 == some i))).map Prod.snd).getLast?) ∧
    exceptIsOk (get_periodos t) = true ∧
    (∀ i : Int, pyLookup (exceptDict (get_periodos t)) i =
      ((pairsP.filter (fun p => !(p.2 == "Selecione um período letivo")
          && (pyInt p.1 == some i))).map Prod.snd).getLast?) := by
  obtain ⟨hvM, htM⟩ := selectOptions_aligned t "busca:matriculas" pairsM hwfM
  obtain ⟨hvP, htP⟩ := selectOptions_aligned t "busca:periodoLetivo" pairsP hwfP
  obtain ⟨m, hm, hlm⟩ := dropFold_char "Selecione um número de matrícula!" pairsM [] hpM
  obtain ⟨mp, hmp, hlp⟩ := dropFold_char "Selecione um período letivo" pairsP [] hpP
  have hgm : get_matriculas t = Except.ok m := by
    rw [get_matriculas, hvM, htM, dropdownDict_eq, zip_map_fst_snd]
    exact hm
  have hgp : get_periodos t = Except.ok mp := by
    rw [get_periodos, hvP, htP, dropdownDict_eq, zip_map_fst_snd]
    exact hmp
  refine ⟨by rw [hgm]; rfl, fun i => ?_, by rw [hgp]; rfl, fun i => ?_⟩
  · rw [hgm]
    have h := hlm i
    rw [show exceptDict (Except.ok m) = m from rfl, h]
    cases ((pairsM.filter (fun p => !(p.2 == "Selecione um número de matrícula!")
        && (pyInt p.1 == some i))).map Prod.snd).getLast? with
    | none => rfl
    | some v => rfl
  · rw [hgp]
    have h := hlp i
    rw [show exceptDict (Except.ok mp) = mp from rfl, h]
    cases ((pairsP.filter (fun p => !(p.2 == "Selecione um período letivo")
        && (pyInt p.1 == some i))).map Prod.snd).getLast? with
    | none => rfl
    | some v => rfl

/-- C7 witness: a page with both dropdowns, the enrollment one carrying the
placeholder (excluded) and a duplicated id 7 whose last label "B" wins; the
term dropdown maps 42 to its label. -/
theorem c7_dropdown_witness :
    exceptIsOk (get_matriculas bothDropsPage) = true ∧
    pyLookup (exceptDict (get_matriculas bothDropsPage)) 7 = some "B" ∧
    pyLookup (exceptDict (get_matriculas bothDropsPage)) 0 = none ∧
    exceptIsOk (get_periodos bothDropsPage) = true ∧
    pyLookup (exceptDict (get_periodos bothDropsPage)) 42 = some "2020.1" := by
  have h := c7_dropdown_amended bothDropsPage pairsM0 pairsP0
    (by decide) (by decide) (by decide) (by decide)
  exact ⟨h.1, (h.2.1 7).trans (by decide), (h.2.1 0).trans (by decide), h.2.2.1,
    (h.2.2.2 42).trans (by decide)⟩
